import Mathlib

/-!
Shallow embedding of the NCDOT incident ingestor (main.go) and proofs about
its normalization, enrichment and upsert pipeline.

Modelling conventions:
* Go `float64` fields are modelled by `GoFloat`: a finite rational or one of
  the non-finite values (`NaN`, `±Inf`).  Only the incident coordinates are
  floats; `encoding/json.Marshal` fails exactly on the non-finite values.
* The two NWS HTTP calls are modelled by an environment (`WeatherEnv`)
  mapping a request URL to the observable outcome of that call: transport
  error, or a response with a status code and a body that either fails to
  read, fails to unmarshal, or parses to the Go struct the code decodes into.
  A request-construction failure (`http.NewRequest`) is folded into the
  transport-error case; it produces the same error return in the code.
* The Postgres table `unified_incidents` is modelled as a list of rows; the
  single `INSERT ... ON CONFLICT (source, source_id) DO UPDATE SET ...`
  statement is modelled by `upsertRow`, and an injected per-row execution
  error (`StoreEnv`) models `db.Exec` failures.
* `time.Time` instants are modelled as seconds since the Unix epoch (`Int`);
  fractional seconds accepted by the RFC 3339 parser are discarded.
  `time.Now()` is the explicit parameter `now`.
-/

namespace NCDOT

/-- A Go `float64` as it matters to this program: a finite value (modelled as
a rational) or one of the non-finite values. -/
inductive GoFloat where
  | finite (q : ℚ)
  | nan
  | posInf
  | negInf
deriving DecidableEq

/-- The `Incident` struct, matching the JSON data from the NCDOT feed
(field order and JSON tags as declared in main.go). -/
structure Incident where
  ID : Int
  Latitude : GoFloat
  Longitude : GoFloat
  CommonName : String
  Reason : String
  Condition : String
  IncidentType : String
  Severity : Int
  Direction : String
  Location : String
  CountyID : Int
  CountyName : String
  City : String
  StartTime : String
  EndTime : String
  LastUpdate : String
  Road : String
  RouteID : Int
  LanesClosed : Int
  LanesTotal : Int
  Detour : String
  CrossStreetPrefix : String
  CrossStreetNumber : Int
  CrossStreetSuffix : String
  CrossStreetCommonName : String
  Event : String
  CreatedFromConcurrent : Bool
  MovableConstruction : String
  WorkZoneSpeedLimit : Int
deriving DecidableEq

/-- The `WeatherData` struct decoded from an NWS hourly forecast period. -/
structure WeatherData where
  Temperature : Int
  WindSpeed : String
  ShortForecast : String
  Icon : String
deriving DecidableEq

/-- JSON values, as produced by `encoding/json.Marshal` on the data of this
program (no arrays occur in the marshalled shapes). -/
inductive JValue where
  | null
  | jbool (b : Bool)
  | jnum (q : ℚ)
  | jstr (s : String)
  | jobj (fields : List (String × JValue))

/-- Assoc lookup of a key in a marshalled JSON object. -/
def jlookup (j : JValue) (k : String) : Option JValue :=
  match j with
  | .jobj fields => fields.lookup k
  | _ => none

/-- `json.Marshal` on a `float64`: fails on the non-finite values
(Go returns `json: unsupported value`). -/
def marshalGoFloat : GoFloat → Except String JValue
  | .finite q => .ok (.jnum q)
  | .nan => .error "json: unsupported value: NaN"
  | .posInf => .error "json: unsupported value: +Inf"
  | .negInf => .error "json: unsupported value: -Inf"

/-- The JSON object `json.Marshal` produces for an `Incident`, given the
already-marshalled coordinate values: the struct tags in field declaration
order. -/
def incidentObj (i : Incident) (lat lon : JValue) : JValue :=
  .jobj
    [ ("id", .jnum i.ID)
    , ("latitude", lat)
    , ("longitude", lon)
    , ("commonName", .jstr i.CommonName)
    , ("reason", .jstr i.Reason)
    , ("condition", .jstr i.Condition)
    , ("incidentType", .jstr i.IncidentType)
    , ("severity", .jnum i.Severity)
    , ("direction", .jstr i.Direction)
    , ("location", .jstr i.Location)
    , ("countyId", .jnum i.CountyID)
    , ("countyName", .jstr i.CountyName)
    , ("city", .jstr i.City)
    , ("start", .jstr i.StartTime)
    , ("end", .jstr i.EndTime)
    , ("lastUpdate", .jstr i.LastUpdate)
    , ("road", .jstr i.Road)
    , ("routeId", .jnum i.RouteID)
    , ("lanesClosed", .jnum i.LanesClosed)
    , ("lanesTotal", .jnum i.LanesTotal)
    , ("detour", .jstr i.Detour)
    , ("crossStreetPrefix", .jstr i.CrossStreetPrefix)
    , ("crossStreetNumber", .jnum i.CrossStreetNumber)
    , ("crossStreetSuffix", .jstr i.CrossStreetSuffix)
    , ("crossStreetCommonName", .jstr i.CrossStreetCommonName)
    , ("event", .jstr i.Event)
    , ("createdFromConcurrent", .jbool i.CreatedFromConcurrent)
    , ("movableConstruction", .jstr i.MovableConstruction)
    , ("workZoneSpeedLimit", .jnum i.WorkZoneSpeedLimit)
    ]

/-- `json.Marshal` of an `Incident`: fails iff a float field is
non-finite. -/
def incidentToJson (i : Incident) : Except String JValue := do
  let lat ← marshalGoFloat i.Latitude
  let lon ← marshalGoFloat i.Longitude
  .ok (incidentObj i lat lon)

/-- `json.Marshal` of the `*WeatherData` pointer held in the details map: a
nil pointer marshals to `null`, otherwise to the struct object. -/
def weatherToJson : Option WeatherData → JValue
  | none => .null
  | some w => .jobj
      [ ("temperature", .jnum w.Temperature)
      , ("windSpeed", .jstr w.WindSpeed)
      , ("shortForecast", .jstr w.ShortForecast)
      , ("icon", .jstr w.Icon)
      ]

/-- `json.Marshal` of the `details` map built in `saveToUnifiedDB`
(Go marshals map keys in sorted order: `raw_incident` before `weather`). -/
def detailsToJson (i : Incident) (w : Option WeatherData) : Except String JValue := do
  let raw ← incidentToJson i
  .ok (.jobj [("raw_incident", raw), ("weather", weatherToJson w)])

/-! ## RFC 3339 timestamp parsing (`time.Parse(time.RFC3339, ·)`) -/

/-- Value of a decimal digit character, if it is one. -/
def digitVal (c : Char) : Option Nat :=
  if c.isDigit then some (c.toNat - 48) else none

/-- Two-digit decimal field. -/
def digit2 (a b : Char) : Option Nat := do
  let x ← digitVal a
  let y ← digitVal b
  pure (10 * x + y)

/-- Four-digit decimal field. -/
def digit4 (a b c d : Char) : Option Nat := do
  let x ← digit2 a b
  let y ← digit2 c d
  pure (100 * x + y)

/-- Gregorian leap-year test. -/
def isLeap (y : Nat) : Bool :=
  y % 4 == 0 && (y % 100 != 0 || y % 400 == 0)

/-- Days in a month, as validated by Go's time parser. -/
def daysInMonth (y m : Nat) : Nat :=
  if m = 2 then (if isLeap y then 29 else 28)
  else if m = 4 ∨ m = 6 ∨ m = 9 ∨ m = 11 then 30
  else 31

/-- Consume an optional fractional-seconds field: a dot must be followed by
at least one digit; all following digits are consumed and discarded. -/
def skipFrac (cs : List Char) : Option (List Char) :=
  match cs with
  | '.' :: rest =>
    match rest with
    | c :: _ => if c.isDigit then some (rest.dropWhile (fun x => x.isDigit)) else none
    | [] => none
  | _ => some cs

/-- Parse the zone suffix (`Z` or `±HH:MM`), which must end the string;
returns the offset east of UTC in minutes. -/
def parseZone : List Char → Option Int
  | ['Z'] => some 0
  | [s, h1, h2, ':', m1, m2] =>
    if s = '+' ∨ s = '-' then do
      let hh ← digit2 h1 h2
      let mm ← digit2 m1 m2
      if hh ≤ 23 ∧ mm ≤ 59 then
        let total : Int := hh * 60 + mm
        some (if s = '+' then total else -total)
      else none
    else none
  | _ => none

/-- Days from 1970-01-01 of a civil date (proleptic Gregorian). -/
def daysFromCivil (y : Int) (m d : Nat) : Int :=
  let yAdj : Int := if m ≤ 2 then y - 1 else y
  let era : Int := (if 0 ≤ yAdj then yAdj else yAdj - 399) / 400
  let yoe : Int := yAdj - era * 400
  let mp : Nat := (m + 9) % 12
  let doy : Int := (153 * mp + 2) / 5 + d - 1
  let doe : Int := yoe * 365 + yoe / 4 - yoe / 100 + doy
  era * 146097 + doe - 719468

/-- Strict RFC 3339 parse, as `time.Parse(time.RFC3339, s)`:
`YYYY-MM-DDTHH:MM:SS(.digits)?(Z|±HH:MM)` with range-checked fields.
Returns the instant as seconds since the Unix epoch; `none` on any
malformation. -/
def parseRFC3339 (s : String) : Option Int :=
  match s.toList with
  | y1 :: y2 :: y3 :: y4 :: '-' :: o1 :: o2 :: '-' :: d1 :: d2 :: 'T' ::
    h1 :: h2 :: ':' :: n1 :: n2 :: ':' :: s1 :: s2 :: rest => do
      let year ← digit4 y1 y2 y3 y4
      let month ← digit2 o1 o2
      let day ← digit2 d1 d2
      let hour ← digit2 h1 h2
      let minute ← digit2 n1 n2
      let second ← digit2 s1 s2
      if 1 ≤ month ∧ month ≤ 12 ∧ 1 ≤ day ∧ day ≤ daysInMonth year month ∧
          hour ≤ 23 ∧ minute ≤ 59 ∧ second ≤ 59 then
        let rest2 ← skipFrac rest
        let off ← parseZone rest2
        some (daysFromCivil year month day * 86400 +
          (hour * 3600 + minute * 60 + second : Nat) - off * 60)
      else none
  | _ => none

/-! ## Weather resolver (`getWeatherForIncident`) -/

/-- Outcome of reading and decoding an HTTP response body: `io.ReadAll`
failure, `json.Unmarshal` failure, or the decoded Go value. -/
inductive BodyResult (β : Type) where
  | readError (msg : String)
  | malformed
  | parsed (val : β)

/-- An HTTP response as observed by the code: status code, status text
(for the non-200 error message) and the body. -/
structure HttpResponse (β : Type) where
  statusCode : Nat
  statusText : String
  body : BodyResult β

/-- Outcome of one `client.Do`: transport failure or a response. -/
inductive HttpResult (β : Type) where
  | netError (msg : String)
  | response (resp : HttpResponse β)

/-- The NWS service, as an environment mapping request URLs to outcomes.
The points body decodes to `Properties.ForecastHourly` (a missing field
decodes to `""`, exactly the case the code checks); the hourly body decodes
to `Properties.Periods`. -/
structure WeatherEnv where
  points : String → HttpResult String
  hourly : String → HttpResult (List WeatherData)

/-- Round a rational to the nearest integer, ties to even
(the rounding of Go's `fmt` verb `%.4f` after scaling). -/
def roundHalfEven (q : ℚ) : Int :=
  let f : Int := ⌊q⌋
  let frac : ℚ := q - f
  if frac < 1/2 then f
  else if 1/2 < frac then f + 1
  else if f % 2 = 0 then f else f + 1

/-- Decimal digits of `n` left-padded with zeros to width 4. -/
def padLeft4 (n : Nat) : String :=
  let s := toString n
  String.mk (List.replicate (4 - s.length) '0') ++ s

/-- Render a nonnegative scaled value `n` (in units of 1/10000) with four
digits after the decimal point. -/
def fmtFixed4Abs (n : Nat) : String :=
  toString (n / 10000) ++ "." ++ padLeft4 (n % 10000)

/-- Go's `%.4f` on a `float64`. -/
def fmt4 : GoFloat → String
  | .nan => "NaN"
  | .posInf => "+Inf"
  | .negInf => "-Inf"
  | .finite q =>
    if q < 0 then "-" ++ fmtFixed4Abs (roundHalfEven (-q * 10000)).toNat
    else fmtFixed4Abs (roundHalfEven (q * 10000)).toNat

/-- The stage-1 metadata URL, keyed by the coordinates rounded to four
decimal places. -/
def pointsURL (lat lon : GoFloat) : String :=
  "https://api.weather.gov/points/" ++ fmt4 lat ++ "," ++ fmt4 lon

/-- Stage 1 of `getWeatherForIncident` (lines 75–99): the error ladder on
the points call, yielding the forecast URL on success. -/
def pointsStage : HttpResult String → Except String String
  | .netError m => .error ("failed to fetch NWS points data: " ++ m)
  | .response r =>
    if r.statusCode ≠ 200 then
      .error ("NWS points API returned non-200 status: " ++ r.statusText)
    else
      match r.body with
      | .readError m => .error ("failed to read NWS points response body: " ++ m)
      | .malformed => .error "failed to unmarshal NWS points JSON"
      | .parsed forecastHourly =>
        if forecastHourly = "" then
          .error "NWS points response did not contain a forecast URL"
        else .ok forecastHourly

/-- Stage 2 of `getWeatherForIncident` (lines 101–125): the error ladder on
the hourly call, yielding the first forecast period on success. -/
def hourlyStage : HttpResult (List WeatherData) → Except String WeatherData
  | .netError m => .error ("failed to fetch NWS hourly data: " ++ m)
  | .response r =>
    if r.statusCode ≠ 200 then
      .error ("NWS hourly API returned non-200 status: " ++ r.statusText)
    else
      match r.body with
      | .readError m => .error ("failed to read NWS hourly response body: " ++ m)
      | .malformed => .error "failed to unmarshal NWS hourly JSON"
      | .parsed periods =>
        match periods with
        | p :: _ => .ok p
        | [] => .error "no weather periods returned from NWS"

/-- `getWeatherForIncident`: two sequential dependent lookups; the stage-2
URL comes from the stage-1 response and stage 2 runs only if stage 1
succeeded. Returns the Go result (`*WeatherData, error`) together with the
list of request URLs issued, in order. -/
def getWeatherForIncident (env : WeatherEnv) (lat lon : GoFloat) :
    Except String WeatherData × List String :=
  let url := pointsURL lat lon
  match pointsStage (env.points url) with
  | .error e => (.error e, [url])
  | .ok forecastHourly =>
    let hurl := forecastHourly ++ "?units=us"
    (hourlyStage (env.hourly hurl), [url, hurl])

/-! ## Unified store (`unified_incidents` and the upsert statement) -/

/-- One row of `unified_incidents`, restricted to the columns this pipeline
writes. -/
structure UnifiedRow where
  source : String
  source_id : String
  event_type : String
  status : String
  address : String
  latitude : GoFloat
  longitude : GoFloat
  timestamp : Int
  details : JValue
  problem_detail : String
  weather_temp : Option Int
  weather_wind_speed : Option String
  weather_forecast : Option String

/-- Does row `r` match the conflict key `(source, source_id)`? -/
def rowKeyMatches (r : UnifiedRow) (src sid : String) : Bool :=
  r.source == src && r.source_id == sid

/-- The `DO UPDATE SET` clause: on conflict, only `details`, `status`
(literal `'active'`), `problem_detail` and the three weather columns are
assigned; every other column keeps the existing row's value. -/
def mergeRow (old new : UnifiedRow) : UnifiedRow :=
  { old with
    details := new.details
    status := "active"
    problem_detail := new.problem_detail
    weather_temp := new.weather_temp
    weather_wind_speed := new.weather_wind_speed
    weather_forecast := new.weather_forecast }

/-- Relational semantics of the single
`INSERT ... ON CONFLICT (source, source_id) DO UPDATE SET ...` statement on
a table modelled as a list of rows. -/
def upsertRow (db : List UnifiedRow) (new : UnifiedRow) : List UnifiedRow :=
  if db.any (fun r => rowKeyMatches r new.source new.source_id) then
    db.map (fun r => if rowKeyMatches r new.source new.source_id then mergeRow r new else r)
  else db ++ [new]

/-- Injected `db.Exec` failure: `some msg` makes the statement for that row
fail (leaving the table unchanged), `none` lets it execute. -/
abbrev StoreEnv := UnifiedRow → Option String

/-- Go's `int32(·)` conversion (two's-complement wraparound), applied to the
temperature when filling `sql.NullInt32`. -/
def int32cast (n : Int) : Int :=
  (n + 2 ^ 31).emod (2 ^ 32) - 2 ^ 31

/-- Observable outcome of one `saveToUnifiedDB` call: the returned error (if
any), the table afterwards, the weather request URLs issued, and the rows
passed to `db.Exec`. -/
structure SaveResult where
  err : Option String
  db : List UnifiedRow
  weatherTrace : List String
  storeCalls : List UnifiedRow

/-- The `*WeatherData` value held after the enrichment step: the fetched
period on success, nil on any lookup error (the error is only logged). -/
def weatherOutcome (wenv : WeatherEnv) (lat lon : GoFloat) : Option WeatherData :=
  match (getWeatherForIncident wenv lat lon).1 with
  | .ok w => some w
  | .error _ => none

/-- The row bound to the insert parameters in `saveToUnifiedDB`: fixed
source `"NCDOT"`, `strconv.Itoa` of the feed id, the incident type as
`event_type`, literal `'active'` status, location snapshot, the parsed (or
fallen-back) timestamp, the marshalled details, `reason` as
`problem_detail`, and the three nullable weather columns (`sql.NullInt32`
carries `int32(Temperature)`). -/
def normalizeRow (now : Int) (incident : Incident) (weatherData : Option WeatherData)
    (detailsJSON : JValue) : UnifiedRow :=
  { source := "NCDOT"
    source_id := toString incident.ID
    event_type := incident.IncidentType
    status := "active"
    address := incident.Location
    latitude := incident.Latitude
    longitude := incident.Longitude
    timestamp := (parseRFC3339 incident.StartTime).getD now
    details := detailsJSON
    problem_detail := incident.Reason
    weather_temp := weatherData.map (fun w => int32cast w.Temperature)
    weather_wind_speed := weatherData.map (fun w => w.WindSpeed)
    weather_forecast := weatherData.map (fun w => w.ShortForecast) }

/-- `saveToUnifiedDB`: normalize, enrich and upsert one incident. -/
def saveToUnifiedDB (wenv : WeatherEnv) (store : StoreEnv) (now : Int)
    (db : List UnifiedRow) (incident : Incident) : SaveResult :=
  let wres := getWeatherForIncident wenv incident.Latitude incident.Longitude
  let weatherData := weatherOutcome wenv incident.Latitude incident.Longitude
  match detailsToJson incident weatherData with
  | .error e =>
    { err := some ("could not marshal unified details to JSON: " ++ e)
      db := db
      weatherTrace := wres.2
      storeCalls := [] }
  | .ok detailsJSON =>
    let row := normalizeRow now incident weatherData detailsJSON
    match store row with
    | some e => { err := some e, db := db, weatherTrace := wres.2, storeCalls := [row] }
    | none => { err := none, db := upsertRow db row, weatherTrace := wres.2, storeCalls := [row] }

/-! ## Ingestion loop (the relevant part of `main`) -/

/-- The relevance filter in `main`'s loop. -/
def isRelevant (i : Incident) : Bool :=
  i.IncidentType == "Vehicle Crash" || i.IncidentType == "Disabled Vehicle"

/-- Observable outcome of the ingestion loop over a batch. -/
structure RunResult where
  db : List UnifiedRow
  incidentsSaved : Nat
  weatherTrace : List String
  storeCalls : List UnifiedRow

/-- The loop in `main`: for each incident whose type is in the allow-set,
call `saveToUnifiedDB`; count the calls that returned no error. -/
def processIncidents (wenv : WeatherEnv) (store : StoreEnv) (now : Int) :
    List UnifiedRow → List Incident → RunResult
  | db, [] => { db := db, incidentsSaved := 0, weatherTrace := [], storeCalls := [] }
  | db, inc :: rest =>
    if isRelevant inc then
      let r := saveToUnifiedDB wenv store now db inc
      let restOut := processIncidents wenv store now r.db rest
      { db := restOut.db
        incidentsSaved := (if r.err.isNone then 1 else 0) + restOut.incidentsSaved
        weatherTrace := r.weatherTrace ++ restOut.weatherTrace
        storeCalls := r.storeCalls ++ restOut.storeCalls }
    else processIncidents wenv store now db rest

/-- Number of rows in the table carrying the given conflict key. -/
def countKey (db : List UnifiedRow) (src sid : String) : Nat :=
  (db.filter (fun r => rowKeyMatches r src sid)).length

/-! ## Concrete fixtures (used by witnesses) -/

/-- A feed incident with the given id, classification tag and start time;
the remaining fields are fixed plausible values. -/
def mkIncident (id : Int) (itype startStr : String) : Incident :=
  { ID := id
    Latitude := .finite (3578 / 100)
    Longitude := .finite (-7864 / 100)
    CommonName := "I-40"
    Reason := "debris"
    Condition := "affecting traffic"
    IncidentType := itype
    Severity := 1
    Direction := "East"
    Location := "I-40 East"
    CountyID := 92
    CountyName := "Wake"
    City := "Raleigh"
    StartTime := startStr
    EndTime := ""
    LastUpdate := ""
    Road := "I-40"
    RouteID := 40
    LanesClosed := 1
    LanesTotal := 3
    Detour := ""
    CrossStreetPrefix := ""
    CrossStreetNumber := 0
    CrossStreetSuffix := ""
    CrossStreetCommonName := ""
    Event := ""
    CreatedFromConcurrent := false
    MovableConstruction := ""
    WorkZoneSpeedLimit := 0 }

/-- An incident whose latitude is `NaN`, so `json.Marshal` of the details
map fails. -/
def nanIncident : Incident :=
  { mkIncident 7 "Vehicle Crash" "2024-05-01T10:00:00Z" with Latitude := .nan }

/-- A sample hourly forecast period. -/
def sampleWeather : WeatherData :=
  { Temperature := 72
    WindSpeed := "5 mph"
    ShortForecast := "Clear"
    Icon := "https://api.weather.gov/icons/land/day/skc" }

/-- A weather service whose calls all fail at transport level. -/
def envFail : WeatherEnv :=
  { points := fun _ => .netError "connection refused"
    hourly := fun _ => .netError "connection refused" }

/-- A weather service that answers both stages successfully. -/
def envOK : WeatherEnv :=
  { points := fun _ =>
      .response ⟨200, "200 OK", .parsed "https://api.weather.gov/gridpoints/RAH/73,57/forecast/hourly"⟩
    hourly := fun _ => .response ⟨200, "200 OK", .parsed [sampleWeather]⟩ }

/-- A store that accepts every statement. -/
def storeOK : StoreEnv := fun _ => none

/-- A store that rejects exactly the row with `source_id = "2"`
(the simulated constraint error of the isolation property). -/
def storeReject2 : StoreEnv :=
  fun row => if row.source_id == "2" then some "constraint violation" else none

/-- The JSON object `json.Marshal` produces for `mkIncident id itype s`
(its coordinates are finite, so marshalling succeeds). -/
def mkIncidentRaw (id : Int) (itype startStr : String) : JValue :=
  incidentObj (mkIncident id itype startStr) (.jnum (3578 / 100)) (.jnum (-7864 / 100))

/-- Three relevant incidents for the isolation example; the store used with
them rejects exactly the row of the second one. -/
def inc1 : Incident := mkIncident 1 "Vehicle Crash" "2024-05-01T10:00:00Z"

/-- Second incident of the isolation example (its row is rejected). -/
def inc2 : Incident := mkIncident 2 "Vehicle Crash" "2024-05-01T10:05:00Z"

/-- Third incident of the isolation example. -/
def inc3 : Incident := mkIncident 3 "Disabled Vehicle" "2024-05-01T10:10:00Z"

/-- A pre-existing row for key `("NCDOT", "555")` with field values distinct
from anything the pipeline writes. -/
def oldRow : UnifiedRow :=
  { source := "NCDOT"
    source_id := "555"
    event_type := "Vehicle Crash"
    status := "resolved"
    address := "old address"
    latitude := .finite 35
    longitude := .finite (-78)
    timestamp := 42
    details := .null
    problem_detail := "old reason"
    weather_temp := some 10
    weather_wind_speed := some "1 mph"
    weather_forecast := some "Rain" }

/-! ## Helper lemmas -/

theorem rowKeyMatches_mergeRow (r n : UnifiedRow) (src sid : String) :
    rowKeyMatches (mergeRow r n) src sid = rowKeyMatches r src sid := rfl

theorem rowKeyMatches_self (n : UnifiedRow) :
    rowKeyMatches n n.source n.source_id = true := by
  simp [rowKeyMatches]

theorem mergeRow_mergeRow (r n : UnifiedRow) :
    mergeRow (mergeRow r n) n = mergeRow r n := rfl

theorem mergeRow_self (n : UnifiedRow) (h : n.status = "active") :
    mergeRow n n = n := by
  cases n
  simp_all [mergeRow]

theorem mergeRow_status (r n : UnifiedRow) : (mergeRow r n).status = "active" := rfl

theorem upsertRow_idem (db : List UnifiedRow) (n : UnifiedRow)
    (h : n.status = "active") :
    upsertRow (upsertRow db n) n = upsertRow db n := by
  unfold upsertRow
  by_cases hany : db.any (fun r => rowKeyMatches r n.source n.source_id) = true
  · have hfg : ∀ r : UnifiedRow,
        rowKeyMatches (if rowKeyMatches r n.source n.source_id then mergeRow r n else r)
          n.source n.source_id = rowKeyMatches r n.source n.source_id := by
      intro r
      by_cases hr : rowKeyMatches r n.source n.source_id = true
      · simp [hr, rowKeyMatches_mergeRow]
      · simp [hr]
    have hany2 : (db.map (fun r =>
        if rowKeyMatches r n.source n.source_id then mergeRow r n else r)).any
        (fun r => rowKeyMatches r n.source n.source_id) = true := by
      rw [List.any_map]
      have : ((fun r => rowKeyMatches r n.source n.source_id) ∘
          (fun r => if rowKeyMatches r n.source n.source_id then mergeRow r n else r)) =
          fun r => rowKeyMatches r n.source n.source_id := by
        funext r
        exact hfg r
      rw [this]
      exact hany
    rw [if_pos hany, if_pos hany2, List.map_map]
    apply List.map_congr_left
    intro r _
    by_cases hr : rowKeyMatches r n.source n.source_id = true
    · simp [Function.comp, hr, rowKeyMatches_mergeRow, mergeRow_mergeRow]
    · simp [Function.comp, hr]
  · have hall : ∀ r ∈ db, rowKeyMatches r n.source n.source_id = false := by
      intro r hr
      by_contra hc
      apply hany
      exact List.any_eq_true.mpr ⟨r, hr, by simpa using hc⟩
    have hany3 : (db ++ [n]).any (fun r => rowKeyMatches r n.source n.source_id) = true := by
      rw [List.any_append]
      simp [rowKeyMatches_self]
    rw [if_neg hany, if_pos hany3, List.map_append]
    congr 1
    · have hmapid : db.map (fun r =>
          if rowKeyMatches r n.source n.source_id then mergeRow r n else r) =
          db.map id := by
        apply List.map_congr_left
        intro r hr
        simp [hall r hr]
      rw [hmapid, List.map_id]
    · simp [rowKeyMatches_self, mergeRow_self n h]

theorem countKey_eq_countP (db : List UnifiedRow) (src sid : String) :
    countKey db src sid = db.countP (fun r => rowKeyMatches r src sid) := by
  rw [countKey, List.countP_eq_length_filter]

theorem countKey_upsertRow (db : List UnifiedRow) (n : UnifiedRow)
    (h1 : countKey db n.source n.source_id ≤ 1) :
    countKey (upsertRow db n) n.source n.source_id = 1 := by
  unfold upsertRow
  by_cases hany : db.any (fun r => rowKeyMatches r n.source n.source_id) = true
  · rw [if_pos hany]
    rw [countKey_eq_countP, List.countP_map]
    have hfg : ((fun r => rowKeyMatches r n.source n.source_id) ∘
        (fun r => if rowKeyMatches r n.source n.source_id then mergeRow r n else r)) =
        fun r => rowKeyMatches r n.source n.source_id := by
      funext r
      by_cases hr : rowKeyMatches r n.source n.source_id = true
      · simp [Function.comp, hr, rowKeyMatches_mergeRow]
      · simp [Function.comp, hr]
    rw [hfg, ← countKey_eq_countP]
    have hpos : 0 < countKey db n.source n.source_id := by
      rw [countKey_eq_countP]
      rw [List.countP_pos_iff]
      obtain ⟨r, hr, hm⟩ := List.any_eq_true.mp hany
      exact ⟨r, hr, hm⟩
    omega
  · rw [if_neg hany, countKey_eq_countP, List.countP_append]
    have hz : db.countP (fun r => rowKeyMatches r n.source n.source_id) = 0 := by
      rw [List.countP_eq_zero]
      intro r hr
      intro hc
      exact hany (List.any_eq_true.mpr ⟨r, hr, hc⟩)
    rw [hz]
    simp [List.countP, List.countP.go, rowKeyMatches_self]

theorem weatherOutcome_error (wenv : WeatherEnv) (lat lon : GoFloat) (m : String)
    (h : (getWeatherForIncident wenv lat lon).1 = .error m) :
    weatherOutcome wenv lat lon = none := by
  unfold weatherOutcome
  rw [h]

theorem detailsToJson_of_ok (i : Incident) (raw : JValue) (w : Option WeatherData)
    (h : incidentToJson i = .ok raw) :
    detailsToJson i w = .ok (.jobj [("raw_incident", raw), ("weather", weatherToJson w)]) := by
  unfold detailsToJson
  rw [h]
  rfl

theorem detailsToJson_of_err (i : Incident) (e : String) (w : Option WeatherData)
    (h : incidentToJson i = .error e) :
    detailsToJson i w = .error e := by
  unfold detailsToJson
  rw [h]
  rfl

theorem saveToUnifiedDB_marshalErr (wenv : WeatherEnv) (store : StoreEnv) (now : Int)
    (db : List UnifiedRow) (inc : Incident) (e : String)
    (h : detailsToJson inc (weatherOutcome wenv inc.Latitude inc.Longitude) = .error e) :
    saveToUnifiedDB wenv store now db inc =
      { err := some ("could not marshal unified details to JSON: " ++ e)
        db := db
        weatherTrace := (getWeatherForIncident wenv inc.Latitude inc.Longitude).2
        storeCalls := [] } := by
  simp only [saveToUnifiedDB, h]

theorem saveToUnifiedDB_storeErr (wenv : WeatherEnv) (store : StoreEnv) (now : Int)
    (db : List UnifiedRow) (inc : Incident) (dj : JValue) (e : String)
    (h : detailsToJson inc (weatherOutcome wenv inc.Latitude inc.Longitude) = .ok dj)
    (hst : store (normalizeRow now inc (weatherOutcome wenv inc.Latitude inc.Longitude) dj) =
      some e) :
    saveToUnifiedDB wenv store now db inc =
      { err := some e
        db := db
        weatherTrace := (getWeatherForIncident wenv inc.Latitude inc.Longitude).2
        storeCalls := [normalizeRow now inc (weatherOutcome wenv inc.Latitude inc.Longitude) dj] } := by
  simp only [saveToUnifiedDB, h, hst]

theorem saveToUnifiedDB_ok (wenv : WeatherEnv) (store : StoreEnv) (now : Int)
    (db : List UnifiedRow) (inc : Incident) (dj : JValue)
    (h : detailsToJson inc (weatherOutcome wenv inc.Latitude inc.Longitude) = .ok dj)
    (hst : store (normalizeRow now inc (weatherOutcome wenv inc.Latitude inc.Longitude) dj) =
      none) :
    saveToUnifiedDB wenv store now db inc =
      { err := none
        db := upsertRow db (normalizeRow now inc (weatherOutcome wenv inc.Latitude inc.Longitude) dj)
        weatherTrace := (getWeatherForIncident wenv inc.Latitude inc.Longitude).2
        storeCalls := [normalizeRow now inc (weatherOutcome wenv inc.Latitude inc.Longitude) dj] } := by
  simp only [saveToUnifiedDB, h, hst]

theorem normalizeRow_source (now : Int) (inc : Incident) (w : Option WeatherData)
    (dj : JValue) : (normalizeRow now inc w dj).source = "NCDOT" := rfl

theorem normalizeRow_source_id (now : Int) (inc : Incident) (w : Option WeatherData)
    (dj : JValue) : (normalizeRow now inc w dj).source_id = toString inc.ID := rfl

theorem normalizeRow_status (now : Int) (inc : Incident) (w : Option WeatherData)
    (dj : JValue) : (normalizeRow now inc w dj).status = "active" := rfl

theorem normalizeRow_details (now : Int) (inc : Incident) (w : Option WeatherData)
    (dj : JValue) : (normalizeRow now inc w dj).details = dj := rfl

theorem saveToUnifiedDB_weatherTrace (wenv : WeatherEnv) (store : StoreEnv) (now : Int)
    (db : List UnifiedRow) (inc : Incident) :
    (saveToUnifiedDB wenv store now db inc).weatherTrace =
      (getWeatherForIncident wenv inc.Latitude inc.Longitude).2 := by
  cases hd : detailsToJson inc (weatherOutcome wenv inc.Latitude inc.Longitude) with
  | error e => rw [saveToUnifiedDB_marshalErr wenv store now db inc e hd]
  | ok dj =>
    cases hst : store (normalizeRow now inc (weatherOutcome wenv inc.Latitude inc.Longitude) dj) with
    | some e => rw [saveToUnifiedDB_storeErr wenv store now db inc dj e hd hst]
    | none => rw [saveToUnifiedDB_ok wenv store now db inc dj hd hst]

theorem getWeatherForIncident_trace_shape (env : WeatherEnv) (lat lon : GoFloat) :
    (getWeatherForIncident env lat lon).2.head? = some (pointsURL lat lon) ∧
    (getWeatherForIncident env lat lon).2.length ≤ 2 := by
  unfold getWeatherForIncident
  cases hps : pointsStage (env.points (pointsURL lat lon)) with
  | error e => simp [hps]
  | ok forecastHourly => simp [hps]

theorem pointsStage_eq_ok (x : HttpResult String) (fc : String)
    (h : pointsStage x = .ok fc) :
    fc ≠ "" ∧ ∃ r, x = .response r ∧ r.statusCode = 200 ∧ r.body = .parsed fc := by
  cases x with
  | netError m => simp [pointsStage] at h
  | response r =>
    obtain ⟨code, text, body⟩ := r
    simp only [pointsStage] at h
    by_cases hc : code = 200
    · rw [if_neg (not_not_intro hc)] at h
      cases body with
      | readError m => simp at h
      | malformed => simp at h
      | parsed f =>
        dsimp only at h
        by_cases hf : f = ""
        · rw [if_pos hf] at h
          simp at h
        · rw [if_neg hf] at h
          injection h with hfc
          subst hfc
          exact ⟨hf, ⟨code, text, .parsed f⟩, rfl, hc, rfl⟩
    · rw [if_pos hc] at h
      simp at h

theorem hourlyStage_eq_ok (x : HttpResult (List WeatherData)) (w : WeatherData)
    (h : hourlyStage x = .ok w) :
    ∃ r ps, x = .response r ∧ r.statusCode = 200 ∧ r.body = .parsed ps ∧
      ps.head? = some w := by
  cases x with
  | netError m => simp [hourlyStage] at h
  | response r =>
    obtain ⟨code, text, body⟩ := r
    simp only [hourlyStage] at h
    by_cases hc : code = 200
    · rw [if_neg (not_not_intro hc)] at h
      cases body with
      | readError m => simp at h
      | malformed => simp at h
      | parsed ps =>
        cases ps with
        | nil => simp at h
        | cons p rest =>
          dsimp only at h
          injection h with hw
          exact ⟨⟨code, text, .parsed (p :: rest)⟩, p :: rest, rfl, hc, rfl, by simp [hw]⟩
    · rw [if_pos hc] at h
      simp at h

theorem getWeatherForIncident_eq_ok (env : WeatherEnv) (lat lon : GoFloat)
    (w : WeatherData) (h : (getWeatherForIncident env lat lon).1 = .ok w) :
    ∃ fc, pointsStage (env.points (pointsURL lat lon)) = .ok fc ∧
      (getWeatherForIncident env lat lon).2 =
        [pointsURL lat lon, fc ++ "?units=us"] ∧
      hourlyStage (env.hourly (fc ++ "?units=us")) = .ok w := by
  simp only [getWeatherForIncident] at h ⊢
  cases hp : pointsStage (env.points (pointsURL lat lon)) with
  | error e =>
    rw [hp] at h
    simp at h
  | ok fc =>
    rw [hp] at h
    refine ⟨fc, rfl, ?_, ?_⟩
    · simp [hp]
    · simpa using h

theorem processIncidents_cons_rel (wenv : WeatherEnv) (store : StoreEnv) (now : Int)
    (db : List UnifiedRow) (inc : Incident) (rest : List Incident)
    (h : isRelevant inc = true) :
    processIncidents wenv store now db (inc :: rest) =
      { db := (processIncidents wenv store now
          (saveToUnifiedDB wenv store now db inc).db rest).db
        incidentsSaved := (if (saveToUnifiedDB wenv store now db inc).err.isNone then 1 else 0) +
          (processIncidents wenv store now
            (saveToUnifiedDB wenv store now db inc).db rest).incidentsSaved
        weatherTrace := (saveToUnifiedDB wenv store now db inc).weatherTrace ++
          (processIncidents wenv store now
            (saveToUnifiedDB wenv store now db inc).db rest).weatherTrace
        storeCalls := (saveToUnifiedDB wenv store now db inc).storeCalls ++
          (processIncidents wenv store now
            (saveToUnifiedDB wenv store now db inc).db rest).storeCalls } := by
  simp only [processIncidents, h, if_true]

theorem processIncidents_cons_irrel (wenv : WeatherEnv) (store : StoreEnv) (now : Int)
    (db : List UnifiedRow) (inc : Incident) (rest : List Incident)
    (h : isRelevant inc = false) :
    processIncidents wenv store now db (inc :: rest) =
      processIncidents wenv store now db rest := by
  simp only [processIncidents, h]
  rfl

theorem save_count_eq_filter (wenv : WeatherEnv) (store : StoreEnv) (now : Int)
    (db : List UnifiedRow) (inc : Incident) :
    (if (saveToUnifiedDB wenv store now db inc).err.isNone then 1 else 0) =
      ((saveToUnifiedDB wenv store now db inc).storeCalls.filter
        (fun row => (store row).isNone)).length := by
  cases hd : detailsToJson inc (weatherOutcome wenv inc.Latitude inc.Longitude) with
  | error e => rw [saveToUnifiedDB_marshalErr wenv store now db inc e hd]; rfl
  | ok dj =>
    cases hst : store (normalizeRow now inc (weatherOutcome wenv inc.Latitude inc.Longitude) dj) with
    | some e =>
      rw [saveToUnifiedDB_storeErr wenv store now db inc dj e hd hst]
      simp [List.filter, hst]
    | none =>
      rw [saveToUnifiedDB_ok wenv store now db inc dj hd hst]
      simp [List.filter, hst]

theorem processIncidents_saved_eq_filter (wenv : WeatherEnv) (store : StoreEnv) (now : Int) :
    ∀ (incs : List Incident) (db : List UnifiedRow),
    (processIncidents wenv store now db incs).incidentsSaved =
      ((processIncidents wenv store now db incs).storeCalls.filter
        (fun row => (store row).isNone)).length := by
  intro incs
  induction incs with
  | nil => intro db; rfl
  | cons inc rest ih =>
    intro db
    by_cases h : isRelevant inc = true
    · rw [processIncidents_cons_rel wenv store now db inc rest h]
      simp only [List.filter_append, List.length_append]
      rw [save_count_eq_filter wenv store now db inc, ih]
    · rw [processIncidents_cons_irrel wenv store now db inc rest (by simpa using h)]
      exact ih db

theorem mem_upsertRow (db : List UnifiedRow) (n r : UnifiedRow)
    (hn : n.status = "active") (hr : r ∈ upsertRow db n) :
    r ∈ db ∨ r.status = "active" := by
  unfold upsertRow at hr
  by_cases hany : db.any (fun x => rowKeyMatches x n.source n.source_id) = true
  · rw [if_pos hany] at hr
    obtain ⟨a, ha, hmap⟩ := List.mem_map.mp hr
    by_cases hm : rowKeyMatches a n.source n.source_id = true
    · rw [if_pos hm] at hmap
      right
      rw [← hmap]
      rfl
    · rw [if_neg hm] at hmap
      left
      rw [← hmap]
      exact ha
  · rw [if_neg hany] at hr
    rcases List.mem_append.mp hr with hl | hs
    · exact Or.inl hl
    · right
      rw [List.mem_singleton.mp hs]
      exact hn

theorem save_storeCalls_status (wenv : WeatherEnv) (store : StoreEnv) (now : Int)
    (db : List UnifiedRow) (inc : Incident) :
    ∀ row ∈ (saveToUnifiedDB wenv store now db inc).storeCalls, row.status = "active" := by
  intro row hrow
  cases hd : detailsToJson inc (weatherOutcome wenv inc.Latitude inc.Longitude) with
  | error e =>
    rw [saveToUnifiedDB_marshalErr wenv store now db inc e hd] at hrow
    simp at hrow
  | ok dj =>
    cases hst : store (normalizeRow now inc (weatherOutcome wenv inc.Latitude inc.Longitude) dj) with
    | some e =>
      rw [saveToUnifiedDB_storeErr wenv store now db inc dj e hd hst] at hrow
      rw [List.mem_singleton.mp hrow]
      rfl
    | none =>
      rw [saveToUnifiedDB_ok wenv store now db inc dj hd hst] at hrow
      rw [List.mem_singleton.mp hrow]
      rfl

theorem save_db_mem (wenv : WeatherEnv) (store : StoreEnv) (now : Int)
    (db : List UnifiedRow) (inc : Incident) (r : UnifiedRow)
    (hr : r ∈ (saveToUnifiedDB wenv store now db inc).db) :
    r ∈ db ∨ r.status = "active" := by
  cases hd : detailsToJson inc (weatherOutcome wenv inc.Latitude inc.Longitude) with
  | error e =>
    rw [saveToUnifiedDB_marshalErr wenv store now db inc e hd] at hr
    exact Or.inl hr
  | ok dj =>
    cases hst : store (normalizeRow now inc (weatherOutcome wenv inc.Latitude inc.Longitude) dj) with
    | some e =>
      rw [saveToUnifiedDB_storeErr wenv store now db inc dj e hd hst] at hr
      exact Or.inl hr
    | none =>
      rw [saveToUnifiedDB_ok wenv store now db inc dj hd hst] at hr
      exact mem_upsertRow db (normalizeRow now inc
        (weatherOutcome wenv inc.Latitude inc.Longitude) dj) r rfl hr

theorem process_db_mem (wenv : WeatherEnv) (store : StoreEnv) (now : Int) :
    ∀ (incs : List Incident) (db : List UnifiedRow) (r : UnifiedRow),
    r ∈ (processIncidents wenv store now db incs).db →
    r ∈ db ∨ r.status = "active" := by
  intro incs
  induction incs with
  | nil => intro db r hr; exact Or.inl hr
  | cons inc rest ih =>
    intro db r hr
    by_cases h : isRelevant inc = true
    · rw [processIncidents_cons_rel wenv store now db inc rest h] at hr
      rcases ih (saveToUnifiedDB wenv store now db inc).db r hr with hmem | hact
      · exact save_db_mem wenv store now db inc r hmem
      · exact Or.inr hact
    · rw [processIncidents_cons_irrel wenv store now db inc rest (by simpa using h)] at hr
      exact ih db r hr

theorem process_storeCalls_status (wenv : WeatherEnv) (store : StoreEnv) (now : Int) :
    ∀ (incs : List Incident) (db : List UnifiedRow),
    ∀ row ∈ (processIncidents wenv store now db incs).storeCalls, row.status = "active" := by
  intro incs
  induction incs with
  | nil => intro db row hrow; simp [processIncidents] at hrow
  | cons inc rest ih =>
    intro db row hrow
    by_cases h : isRelevant inc = true
    · rw [processIncidents_cons_rel wenv store now db inc rest h] at hrow
      rcases List.mem_append.mp hrow with hl | hr
      · exact save_storeCalls_status wenv store now db inc row hl
      · exact ih (saveToUnifiedDB wenv store now db inc).db row hr
    · rw [processIncidents_cons_irrel wenv store now db inc rest (by simpa using h)] at hrow
      exact ih db row hrow

/-! ## Claim theorems -/

/-- C1: when a row for the incident's `(source, source_id)` pair already
exists, a successful `saveToUnifiedDB` turns the table into a pointwise
update in which exactly the rows matching the key are merged, the merge
keeps the existing row's `source`, `source_id`, `event_type`, `address`,
`latitude`, `longitude` and `timestamp`, and assigns only `details`,
`status` (to `"active"`), `problem_detail` and the three weather columns
from the new write. -/
theorem upsert_existing_updates_only_mutable_fields
    (wenv : WeatherEnv) (store : StoreEnv) (now : Int) (db : List UnifiedRow)
    (inc : Incident)
    (hmem : ∃ r ∈ db, rowKeyMatches r "NCDOT" (toString inc.ID) = true)
    (hok : (saveToUnifiedDB wenv store now db inc).err = none) :
    ∃ newRow,
      (saveToUnifiedDB wenv store now db inc).storeCalls = [newRow] ∧
      newRow.source = "NCDOT" ∧
      newRow.source_id = toString inc.ID ∧
      (saveToUnifiedDB wenv store now db inc).db =
        db.map (fun r =>
          if rowKeyMatches r "NCDOT" (toString inc.ID) then mergeRow r newRow else r) ∧
      (∀ r : UnifiedRow,
        (mergeRow r newRow).source = r.source ∧
        (mergeRow r newRow).source_id = r.source_id ∧
        (mergeRow r newRow).event_type = r.event_type ∧
        (mergeRow r newRow).address = r.address ∧
        (mergeRow r newRow).latitude = r.latitude ∧
        (mergeRow r newRow).longitude = r.longitude ∧
        (mergeRow r newRow).timestamp = r.timestamp ∧
        (mergeRow r newRow).details = newRow.details ∧
        (mergeRow r newRow).status = "active" ∧
        (mergeRow r newRow).problem_detail = newRow.problem_detail ∧
        (mergeRow r newRow).weather_temp = newRow.weather_temp ∧
        (mergeRow r newRow).weather_wind_speed = newRow.weather_wind_speed ∧
        (mergeRow r newRow).weather_forecast = newRow.weather_forecast) := by
  cases hd : detailsToJson inc (weatherOutcome wenv inc.Latitude inc.Longitude) with
  | error e =>
    rw [saveToUnifiedDB_marshalErr wenv store now db inc e hd] at hok
    simp at hok
  | ok dj =>
    cases hst : store (normalizeRow now inc (weatherOutcome wenv inc.Latitude inc.Longitude) dj) with
    | some e =>
      rw [saveToUnifiedDB_storeErr wenv store now db inc dj e hd hst] at hok
      simp at hok
    | none =>
      rw [saveToUnifiedDB_ok wenv store now db inc dj hd hst]
      refine ⟨normalizeRow now inc (weatherOutcome wenv inc.Latitude inc.Longitude) dj,
        rfl, rfl, rfl, ?_, ?_⟩
      · unfold upsertRow
        have hany : db.any (fun r => rowKeyMatches r
            (normalizeRow now inc (weatherOutcome wenv inc.Latitude inc.Longitude) dj).source
            (normalizeRow now inc (weatherOutcome wenv inc.Latitude inc.Longitude) dj).source_id) =
            true := by
          obtain ⟨r, hrdb, hrk⟩ := hmem
          exact List.any_eq_true.mpr ⟨r, hrdb, hrk⟩
        rw [if_pos hany]
        rfl
      · intro r
        exact ⟨rfl, rfl, rfl, rfl, rfl, rfl, rfl, rfl, rfl, rfl, rfl, rfl, rfl⟩

/-- Witness for C1 at a concrete input: the table holds `oldRow` for key
`("NCDOT", "555")` and incident 555 is saved again. -/
theorem upsert_existing_updates_only_mutable_fields_witness :
    (∃ r ∈ [oldRow], rowKeyMatches r "NCDOT"
      (toString (mkIncident 555 "Vehicle Crash" "2024-05-01T10:00:00Z").ID) = true) ∧
    (saveToUnifiedDB envFail storeOK 1000 [oldRow]
      (mkIncident 555 "Vehicle Crash" "2024-05-01T10:00:00Z")).err = none ∧
    ∃ newRow,
      (saveToUnifiedDB envFail storeOK 1000 [oldRow]
        (mkIncident 555 "Vehicle Crash" "2024-05-01T10:00:00Z")).storeCalls = [newRow] ∧
      newRow.source = "NCDOT" ∧
      newRow.source_id = toString (mkIncident 555 "Vehicle Crash" "2024-05-01T10:00:00Z").ID ∧
      (saveToUnifiedDB envFail storeOK 1000 [oldRow]
        (mkIncident 555 "Vehicle Crash" "2024-05-01T10:00:00Z")).db =
        [oldRow].map (fun r =>
          if rowKeyMatches r "NCDOT"
            (toString (mkIncident 555 "Vehicle Crash" "2024-05-01T10:00:00Z").ID) then
            mergeRow r newRow
          else r) ∧
      (∀ r : UnifiedRow,
        (mergeRow r newRow).source = r.source ∧
        (mergeRow r newRow).source_id = r.source_id ∧
        (mergeRow r newRow).event_type = r.event_type ∧
        (mergeRow r newRow).address = r.address ∧
        (mergeRow r newRow).latitude = r.latitude ∧
        (mergeRow r newRow).longitude = r.longitude ∧
        (mergeRow r newRow).timestamp = r.timestamp ∧
        (mergeRow r newRow).details = newRow.details ∧
        (mergeRow r newRow).status = "active" ∧
        (mergeRow r newRow).problem_detail = newRow.problem_detail ∧
        (mergeRow r newRow).weather_temp = newRow.weather_temp ∧
        (mergeRow r newRow).weather_wind_speed = newRow.weather_wind_speed ∧
        (mergeRow r newRow).weather_forecast = newRow.weather_forecast) :=
  ⟨by decide, by decide,
    upsert_existing_updates_only_mutable_fields envFail storeOK 1000 [oldRow]
      (mkIncident 555 "Vehicle Crash" "2024-05-01T10:00:00Z") (by decide) (by decide)⟩

/-- C2: re-running the upsert with identical input leaves the table and the
returned error unchanged, and when the table held at most one row for the
incident's key and the first write succeeded, the table holds exactly one
row for that key. -/
theorem upsert_idempotent_single_row
    (wenv : WeatherEnv) (store : StoreEnv) (now : Int) (db : List UnifiedRow)
    (inc : Incident) :
    (saveToUnifiedDB wenv store now (saveToUnifiedDB wenv store now db inc).db inc).db =
      (saveToUnifiedDB wenv store now db inc).db ∧
    (saveToUnifiedDB wenv store now (saveToUnifiedDB wenv store now db inc).db inc).err =
      (saveToUnifiedDB wenv store now db inc).err ∧
    (countKey db "NCDOT" (toString inc.ID) ≤ 1 →
      (saveToUnifiedDB wenv store now db inc).err = none →
      countKey (saveToUnifiedDB wenv store now db inc).db "NCDOT" (toString inc.ID) = 1) := by
  cases hd : detailsToJson inc (weatherOutcome wenv inc.Latitude inc.Longitude) with
  | error e =>
    simp only [saveToUnifiedDB_marshalErr wenv store now db inc e hd]
    refine ⟨trivial, trivial, ?_⟩
    intro _ h2
    simp at h2
  | ok dj =>
    cases hst : store (normalizeRow now inc (weatherOutcome wenv inc.Latitude inc.Longitude) dj) with
    | some e =>
      simp only [saveToUnifiedDB_storeErr wenv store now db inc dj e hd hst]
      refine ⟨trivial, trivial, ?_⟩
      intro _ h2
      simp at h2
    | none =>
      have h1 := saveToUnifiedDB_ok wenv store now db inc dj hd hst
      have h2 := saveToUnifiedDB_ok wenv store now
        (upsertRow db (normalizeRow now inc (weatherOutcome wenv inc.Latitude inc.Longitude) dj))
        inc dj hd hst
      simp only [h1, h2]
      refine ⟨?_, trivial, ?_⟩
      · exact upsertRow_idem db _ rfl
      · intro hc _
        exact countKey_upsertRow db _ hc

/-- Witness for C2 at a concrete input: key `("NCDOT", "555")` with one
pre-existing row. -/
theorem upsert_idempotent_single_row_witness :
    countKey [oldRow] "NCDOT"
      (toString (mkIncident 555 "Vehicle Crash" "2024-05-01T10:00:00Z").ID) ≤ 1 ∧
    (saveToUnifiedDB envFail storeOK 1000 [oldRow]
      (mkIncident 555 "Vehicle Crash" "2024-05-01T10:00:00Z")).err = none ∧
    countKey (saveToUnifiedDB envFail storeOK 1000 [oldRow]
      (mkIncident 555 "Vehicle Crash" "2024-05-01T10:00:00Z")).db "NCDOT"
      (toString (mkIncident 555 "Vehicle Crash" "2024-05-01T10:00:00Z").ID) = 1 :=
  ⟨by decide, by decide,
    (upsert_idempotent_single_row envFail storeOK 1000 [oldRow]
      (mkIncident 555 "Vehicle Crash" "2024-05-01T10:00:00Z")).2.2 (by decide) (by decide)⟩

/-- C3: the loop's reported success count always equals the number of
issued store writes the store accepted, and a relevant record never stops
the batch: processing `inc :: rest` decomposes into the save of `inc`
followed by the processing of all of `rest`, whatever the outcome of the
save of `inc`. -/
theorem store_failure_isolated_and_count_successes
    (wenv : WeatherEnv) (store : StoreEnv) (now : Int) (db : List UnifiedRow)
    (incs : List Incident) (inc : Incident) (rest : List Incident)
    (hrel : isRelevant inc = true) :
    (processIncidents wenv store now db incs).incidentsSaved =
      ((processIncidents wenv store now db incs).storeCalls.filter
        (fun row => (store row).isNone)).length ∧
    processIncidents wenv store now db (inc :: rest) =
      { db := (processIncidents wenv store now
          (saveToUnifiedDB wenv store now db inc).db rest).db
        incidentsSaved := (if (saveToUnifiedDB wenv store now db inc).err.isNone then 1 else 0) +
          (processIncidents wenv store now
            (saveToUnifiedDB wenv store now db inc).db rest).incidentsSaved
        weatherTrace := (saveToUnifiedDB wenv store now db inc).weatherTrace ++
          (processIncidents wenv store now
            (saveToUnifiedDB wenv store now db inc).db rest).weatherTrace
        storeCalls := (saveToUnifiedDB wenv store now db inc).storeCalls ++
          (processIncidents wenv store now
            (saveToUnifiedDB wenv store now db inc).db rest).storeCalls } :=
  ⟨processIncidents_saved_eq_filter wenv store now incs db,
    processIncidents_cons_rel wenv store now db inc rest hrel⟩

/-- Witness for C3: a batch of three relevant incidents where the store
rejects exactly the second one; the theorem applies, and concretely the
reported count is 2 and the table ends with the first and third rows. -/
theorem store_failure_isolated_and_count_successes_witness :
    isRelevant inc1 = true ∧
    ((processIncidents envFail storeReject2 0 [] [inc1, inc2, inc3]).incidentsSaved =
      ((processIncidents envFail storeReject2 0 [] [inc1, inc2, inc3]).storeCalls.filter
        (fun row => (storeReject2 row).isNone)).length ∧
     processIncidents envFail storeReject2 0 [] (inc1 :: [inc2, inc3]) =
      { db := (processIncidents envFail storeReject2 0
          (saveToUnifiedDB envFail storeReject2 0 [] inc1).db [inc2, inc3]).db
        incidentsSaved :=
          (if (saveToUnifiedDB envFail storeReject2 0 [] inc1).err.isNone then 1 else 0) +
          (processIncidents envFail storeReject2 0
            (saveToUnifiedDB envFail storeReject2 0 [] inc1).db [inc2, inc3]).incidentsSaved
        weatherTrace := (saveToUnifiedDB envFail storeReject2 0 [] inc1).weatherTrace ++
          (processIncidents envFail storeReject2 0
            (saveToUnifiedDB envFail storeReject2 0 [] inc1).db [inc2, inc3]).weatherTrace
        storeCalls := (saveToUnifiedDB envFail storeReject2 0 [] inc1).storeCalls ++
          (processIncidents envFail storeReject2 0
            (saveToUnifiedDB envFail storeReject2 0 [] inc1).db [inc2, inc3]).storeCalls }) ∧
    (processIncidents envFail storeReject2 0 [] [inc1, inc2, inc3]).incidentsSaved = 2 ∧
    (processIncidents envFail storeReject2 0 [] [inc1, inc2, inc3]).db.length = 2 ∧
    ((processIncidents envFail storeReject2 0 [] [inc1, inc2, inc3]).db.map
      (fun r => r.source_id)) = ["1", "3"] :=
  ⟨by decide,
    store_failure_isolated_and_count_successes envFail storeReject2 0 [] [inc1, inc2, inc3]
      inc1 [inc2, inc3] (by decide),
    by decide, by decide, by decide⟩

/-- C4: a record is weather-looked-up, normalized and written iff its
classification tag lies in the allow-set: the relevance test is exactly
membership of the tag in the set of the two allowed strings; processing
`inc :: rest` is the save of `inc` composed with the rest when `inc` is
relevant and is exactly the processing of `rest` from the unchanged table
(no store calls, no weather requests, no count contribution) when it is
not; and a relevant record's save does perform the weather lookup — its
first issued request is the points URL for the incident's coordinates. -/
theorem relevance_filter_decides_processing
    (wenv : WeatherEnv) (store : StoreEnv) (now : Int) (db : List UnifiedRow)
    (inc : Incident) (rest : List Incident) :
    (isRelevant inc = true ↔
      inc.IncidentType = "Vehicle Crash" ∨ inc.IncidentType = "Disabled Vehicle") ∧
    processIncidents wenv store now db (inc :: rest) =
      (if isRelevant inc then
        { db := (processIncidents wenv store now
            (saveToUnifiedDB wenv store now db inc).db rest).db
          incidentsSaved := (if (saveToUnifiedDB wenv store now db inc).err.isNone then 1 else 0) +
            (processIncidents wenv store now
              (saveToUnifiedDB wenv store now db inc).db rest).incidentsSaved
          weatherTrace := (saveToUnifiedDB wenv store now db inc).weatherTrace ++
            (processIncidents wenv store now
              (saveToUnifiedDB wenv store now db inc).db rest).weatherTrace
          storeCalls := (saveToUnifiedDB wenv store now db inc).storeCalls ++
            (processIncidents wenv store now
              (saveToUnifiedDB wenv store now db inc).db rest).storeCalls }
      else processIncidents wenv store now db rest) ∧
    (saveToUnifiedDB wenv store now db inc).weatherTrace.head? =
      some (pointsURL inc.Latitude inc.Longitude) := by
  refine ⟨?_, ?_, ?_⟩
  · simp [isRelevant]
  · by_cases h : isRelevant inc = true
    · rw [if_pos h]
      exact processIncidents_cons_rel wenv store now db inc rest h
    · rw [if_neg h]
      exact processIncidents_cons_irrel wenv store now db inc rest (by simpa using h)
  · rw [saveToUnifiedDB_weatherTrace]
    exact (getWeatherForIncident_trace_shape wenv inc.Latitude inc.Longitude).1

/-- C10: when marshalling the details blob fails, `saveToUnifiedDB` returns
exactly that error, the table is unchanged and no store statement was
issued. -/
theorem marshal_failure_returns_before_store_write
    (wenv : WeatherEnv) (store : StoreEnv) (now : Int) (db : List UnifiedRow)
    (inc : Incident) (e : String)
    (he : incidentToJson inc = .error e) :
    (saveToUnifiedDB wenv store now db inc).err =
      some ("could not marshal unified details to JSON: " ++ e) ∧
    (saveToUnifiedDB wenv store now db inc).db = db ∧
    (saveToUnifiedDB wenv store now db inc).storeCalls = [] := by
  have hd := detailsToJson_of_err inc e (weatherOutcome wenv inc.Latitude inc.Longitude) he
  rw [saveToUnifiedDB_marshalErr wenv store now db inc e hd]
  exact ⟨rfl, rfl, rfl⟩

/-- Witness for C10: an incident with `NaN` latitude makes the marshal
fail; the save returns the wrapped error and leaves the table [oldRow]
unchanged with no store call. -/
theorem marshal_failure_returns_before_store_write_witness :
    incidentToJson nanIncident = .error "json: unsupported value: NaN" ∧
    ((saveToUnifiedDB envFail storeOK 0 [oldRow] nanIncident).err =
      some ("could not marshal unified details to JSON: " ++ "json: unsupported value: NaN") ∧
    (saveToUnifiedDB envFail storeOK 0 [oldRow] nanIncident).db = [oldRow] ∧
    (saveToUnifiedDB envFail storeOK 0 [oldRow] nanIncident).storeCalls = []) :=
  ⟨rfl, marshal_failure_returns_before_store_write envFail storeOK 0 [oldRow] nanIncident
    "json: unsupported value: NaN" rfl⟩

/-- C5: when the weather lookup fails (for any of its error causes), the
save still builds the row — all three weather columns are null, the details
blob's `weather` entry is `null` — and still issues the store write; with
an accepting store the row is upserted and no error is returned. -/
theorem weather_failure_nonfatal_weather_absent
    (wenv : WeatherEnv) (store : StoreEnv) (now : Int) (db : List UnifiedRow)
    (inc : Incident) (msg : String) (raw : JValue)
    (herr : (getWeatherForIncident wenv inc.Latitude inc.Longitude).1 = .error msg)
    (hraw : incidentToJson inc = .ok raw)
    (hstore : ∀ r, store r = none) :
    ∃ row,
      (saveToUnifiedDB wenv store now db inc).storeCalls = [row] ∧
      row.weather_temp = none ∧
      row.weather_wind_speed = none ∧
      row.weather_forecast = none ∧
      jlookup row.details "weather" = some JValue.null ∧
      (saveToUnifiedDB wenv store now db inc).err = none ∧
      (saveToUnifiedDB wenv store now db inc).db = upsertRow db row := by
  have hw : weatherOutcome wenv inc.Latitude inc.Longitude = none :=
    weatherOutcome_error wenv inc.Latitude inc.Longitude msg herr
  have hd : detailsToJson inc (weatherOutcome wenv inc.Latitude inc.Longitude) =
      .ok (.jobj [("raw_incident", raw), ("weather", JValue.null)]) := by
    rw [hw]
    exact detailsToJson_of_ok inc raw none hraw
  rw [saveToUnifiedDB_ok wenv store now db inc _ hd (hstore _)]
  refine ⟨normalizeRow now inc (weatherOutcome wenv inc.Latitude inc.Longitude)
    (.jobj [("raw_incident", raw), ("weather", JValue.null)]), rfl, ?_, ?_, ?_, ?_, rfl, rfl⟩
  · simp [normalizeRow, hw]
  · simp [normalizeRow, hw]
  · simp [normalizeRow, hw]
  · have hne : ("weather" == "raw_incident") = false := by decide
    simp [normalizeRow_details, jlookup, List.lookup, hne]

/-- Witness for C5: weather fails at transport level for incident 1; the
store accepts; the save writes a weather-less row. -/
theorem weather_failure_nonfatal_weather_absent_witness :
    (getWeatherForIncident envFail inc1.Latitude inc1.Longitude).1 =
      .error "failed to fetch NWS points data: connection refused" ∧
    incidentToJson inc1 = .ok (mkIncidentRaw 1 "Vehicle Crash" "2024-05-01T10:00:00Z") ∧
    (∀ r, storeOK r = none) ∧
    ∃ row,
      (saveToUnifiedDB envFail storeOK 0 [] inc1).storeCalls = [row] ∧
      row.weather_temp = none ∧
      row.weather_wind_speed = none ∧
      row.weather_forecast = none ∧
      jlookup row.details "weather" = some JValue.null ∧
      (saveToUnifiedDB envFail storeOK 0 [] inc1).err = none ∧
      (saveToUnifiedDB envFail storeOK 0 [] inc1).db = upsertRow [] row :=
  ⟨rfl, rfl, fun _ => rfl,
    weather_failure_nonfatal_weather_absent envFail storeOK 0 [] inc1
      "failed to fetch NWS points data: connection refused"
      (mkIncidentRaw 1 "Vehicle Crash" "2024-05-01T10:00:00Z") rfl rfl (fun _ => rfl)⟩

/-- C6: when the start-time string fails strict RFC 3339 parsing, the row's
timestamp is exactly the current wall-clock time (`now`), and the record is
still written: the store statement is issued, and with an accepting store
the row is upserted with no error. -/
theorem timestamp_parse_failure_falls_back_to_now
    (wenv : WeatherEnv) (store : StoreEnv) (now : Int) (db : List UnifiedRow)
    (inc : Incident) (raw : JValue)
    (hparse : parseRFC3339 inc.StartTime = none)
    (hraw : incidentToJson inc = .ok raw)
    (hstore : ∀ r, store r = none) :
    ∃ row,
      (saveToUnifiedDB wenv store now db inc).storeCalls = [row] ∧
      row.timestamp = now ∧
      (saveToUnifiedDB wenv store now db inc).err = none ∧
      (saveToUnifiedDB wenv store now db inc).db = upsertRow db row := by
  have hd := detailsToJson_of_ok inc raw (weatherOutcome wenv inc.Latitude inc.Longitude) hraw
  rw [saveToUnifiedDB_ok wenv store now db inc _ hd (hstore _)]
  refine ⟨normalizeRow now inc (weatherOutcome wenv inc.Latitude inc.Longitude)
    (.jobj [("raw_incident", raw),
      ("weather", weatherToJson (weatherOutcome wenv inc.Latitude inc.Longitude))]),
    rfl, ?_, rfl, rfl⟩
  simp [normalizeRow, hparse]

/-- Witness for C6: incident 666 has start time `"not-a-date"`, which fails
parsing; its row carries the wall-clock time 12345. -/
theorem timestamp_parse_failure_falls_back_to_now_witness :
    parseRFC3339 (mkIncident 666 "Vehicle Crash" "not-a-date").StartTime = none ∧
    incidentToJson (mkIncident 666 "Vehicle Crash" "not-a-date") =
      .ok (mkIncidentRaw 666 "Vehicle Crash" "not-a-date") ∧
    (∀ r, storeOK r = none) ∧
    ∃ row,
      (saveToUnifiedDB envFail storeOK 12345 []
        (mkIncident 666 "Vehicle Crash" "not-a-date")).storeCalls = [row] ∧
      row.timestamp = 12345 ∧
      (saveToUnifiedDB envFail storeOK 12345 []
        (mkIncident 666 "Vehicle Crash" "not-a-date")).err = none ∧
      (saveToUnifiedDB envFail storeOK 12345 []
        (mkIncident 666 "Vehicle Crash" "not-a-date")).db = upsertRow [] row :=
  ⟨by decide, rfl, fun _ => rfl,
    timestamp_parse_failure_falls_back_to_now envFail storeOK 12345 []
      (mkIncident 666 "Vehicle Crash" "not-a-date")
      (mkIncidentRaw 666 "Vehicle Crash" "not-a-date") (by decide) rfl (fun _ => rfl)⟩

/-- C7: every row the pipeline passes to the store has status `"active"`,
and every row of the table after a run either was already in the table
before the run or has status `"active"` — the pipeline never writes any
other status value, in the insert branch or the conflict-update branch. -/
theorem every_write_sets_status_active
    (wenv : WeatherEnv) (store : StoreEnv) (now : Int) (db : List UnifiedRow)
    (incs : List Incident) :
    ((processIncidents wenv store now db incs).storeCalls.all
      (fun row => row.status == "active")) = true ∧
    (∀ i, i < (processIncidents wenv store now db incs).db.length →
      ((processIncidents wenv store now db incs).db.getD i oldRow ∈ db ∨
        ((processIncidents wenv store now db incs).db.getD i oldRow).status = "active")) := by
  constructor
  · rw [List.all_eq_true]
    intro row hrow
    have hs := process_storeCalls_status wenv store now incs db row hrow
    simp [hs]
  · intro i hlt
    have hg : (processIncidents wenv store now db incs).db.getD i oldRow =
        (processIncidents wenv store now db incs).db.get ⟨i, hlt⟩ := by
      rw [List.getD_eq_get?, List.get?_eq_get hlt]
      rfl
    rw [hg]
    exact process_db_mem wenv store now incs db _ (List.get_mem _ _ _)

/-- Witness for C7: one relevant incident processed from an empty table;
the single resulting row has status active. -/
theorem every_write_sets_status_active_witness :
    (0 : Nat) < (processIncidents envFail storeOK 0 [] [inc1]).db.length ∧
    ((processIncidents envFail storeOK 0 [] [inc1]).storeCalls.all
      (fun row => row.status == "active")) = true ∧
    ((processIncidents envFail storeOK 0 [] [inc1]).db.getD 0 oldRow ∈ ([] : List UnifiedRow) ∨
      ((processIncidents envFail storeOK 0 [] [inc1]).db.getD 0 oldRow).status = "active") :=
  ⟨by decide,
    (every_write_sets_status_active envFail storeOK 0 [] [inc1]).1,
    (every_write_sets_status_active envFail storeOK 0 [] [inc1]).2 0 (by decide)⟩

/-- C8: the resolver issues at most two requests, always beginning with the
points URL keyed by the rounded coordinates; on success it issued exactly
the points request and then the forecast URL taken from the points
response (suffixed `?units=us`), and returned the first entry of the
response's period sequence; and no result is cached across incidents —
every save's request trace is a fresh full resolver run, and the batch
trace is the per-incident concatenation. -/
theorem weather_resolver_two_dependent_lookups_no_cache
    (env : WeatherEnv) (lat lon : GoFloat) :
    (getWeatherForIncident env lat lon).2.head? = some (pointsURL lat lon) ∧
    (getWeatherForIncident env lat lon).2.length ≤ 2 ∧
    (∀ w, (getWeatherForIncident env lat lon).1 = .ok w →
      ∃ fc, fc ≠ "" ∧
        (∃ r, env.points (pointsURL lat lon) = .response r ∧
          r.statusCode = 200 ∧ r.body = .parsed fc) ∧
        (getWeatherForIncident env lat lon).2 =
          [pointsURL lat lon, fc ++ "?units=us"] ∧
        (∃ r2 ps, env.hourly (fc ++ "?units=us") = .response r2 ∧
          r2.statusCode = 200 ∧ r2.body = .parsed ps ∧ ps.head? = some w)) ∧
    (∀ (store : StoreEnv) (now : Int) (db : List UnifiedRow) (inc : Incident)
      (rest : List Incident),
      (saveToUnifiedDB env store now db inc).weatherTrace =
        (getWeatherForIncident env inc.Latitude inc.Longitude).2 ∧
      (processIncidents env store now db (inc :: rest)).weatherTrace =
        (if isRelevant inc then (saveToUnifiedDB env store now db inc).weatherTrace else []) ++
        (processIncidents env store now
          (if isRelevant inc then (saveToUnifiedDB env store now db inc).db else db)
          rest).weatherTrace) := by
  refine ⟨(getWeatherForIncident_trace_shape env lat lon).1,
    (getWeatherForIncident_trace_shape env lat lon).2, ?_, ?_⟩
  · intro w hok
    obtain ⟨fc, hp, htr, hh⟩ := getWeatherForIncident_eq_ok env lat lon w hok
    obtain ⟨hne, r, hr, hc, hb⟩ := pointsStage_eq_ok _ fc hp
    obtain ⟨r2, ps, hr2, hc2, hb2, hhead⟩ := hourlyStage_eq_ok _ w hh
    exact ⟨fc, hne, ⟨r, hr, hc, hb⟩, htr, ⟨r2, ps, hr2, hc2, hb2, hhead⟩⟩
  · intro store now db inc rest
    refine ⟨saveToUnifiedDB_weatherTrace env store now db inc, ?_⟩
    by_cases h : isRelevant inc = true
    · rw [if_pos h, if_pos h, processIncidents_cons_rel env store now db inc rest h]
    · rw [if_neg h, if_neg h,
        processIncidents_cons_irrel env store now db inc rest (by simpa using h)]
      simp

/-- Witness for C8: a successful resolver run against `envOK`. -/
theorem weather_resolver_two_dependent_lookups_no_cache_witness :
    (getWeatherForIncident envOK (GoFloat.finite 35) (GoFloat.finite (-78))).1 =
      .ok sampleWeather ∧
    ∃ fc, fc ≠ "" ∧
      (∃ r, envOK.points (pointsURL (GoFloat.finite 35) (GoFloat.finite (-78))) =
        .response r ∧ r.statusCode = 200 ∧ r.body = .parsed fc) ∧
      (getWeatherForIncident envOK (GoFloat.finite 35) (GoFloat.finite (-78))).2 =
        [pointsURL (GoFloat.finite 35) (GoFloat.finite (-78)), fc ++ "?units=us"] ∧
      (∃ r2 ps, envOK.hourly (fc ++ "?units=us") = .response r2 ∧
        r2.statusCode = 200 ∧ r2.body = .parsed ps ∧ ps.head? = some sampleWeather) :=
  ⟨rfl,
    (weather_resolver_two_dependent_lookups_no_cache envOK
      (GoFloat.finite 35) (GoFloat.finite (-78))).2.2.1 sampleWeather rfl⟩

/-- C9: every row the save passes to the store carries a details blob whose
object holds the full marshalled raw incident under `raw_incident` and a
`weather` key; when the weather lookup failed, the `weather` key is present
and maps to `null` (it is not omitted). -/
theorem details_blob_contains_raw_incident_and_weather_key
    (wenv : WeatherEnv) (store : StoreEnv) (now : Int) (db : List UnifiedRow)
    (inc : Incident) (raw : JValue)
    (hraw : incidentToJson inc = .ok raw) :
    ∀ i, i < (saveToUnifiedDB wenv store now db inc).storeCalls.length →
      (jlookup (((saveToUnifiedDB wenv store now db inc).storeCalls.getD i oldRow).details)
        "raw_incident" = some raw ∧
      ∃ wv,
        jlookup (((saveToUnifiedDB wenv store now db inc).storeCalls.getD i oldRow).details)
          "weather" = some wv ∧
        (∀ msg, (getWeatherForIncident wenv inc.Latitude inc.Longitude).1 = .error msg →
          wv = JValue.null)) := by
  have hd := detailsToJson_of_ok inc raw (weatherOutcome wenv inc.Latitude inc.Longitude) hraw
  have hcalls : (saveToUnifiedDB wenv store now db inc).storeCalls =
      [normalizeRow now inc (weatherOutcome wenv inc.Latitude inc.Longitude)
        (.jobj [("raw_incident", raw),
          ("weather", weatherToJson (weatherOutcome wenv inc.Latitude inc.Longitude))])] := by
    cases hst : store (normalizeRow now inc (weatherOutcome wenv inc.Latitude inc.Longitude)
        (.jobj [("raw_incident", raw),
          ("weather", weatherToJson (weatherOutcome wenv inc.Latitude inc.Longitude))])) with
    | some e => rw [saveToUnifiedDB_storeErr wenv store now db inc _ e hd hst]
    | none => rw [saveToUnifiedDB_ok wenv store now db inc _ hd hst]
  intro i hlt
  rw [hcalls] at hlt ⊢
  have hi : i = 0 := by simpa using Nat.lt_one_iff.mp (by simpa using hlt)
  subst hi
  have hne : ("weather" == "raw_incident") = false := by decide
  refine ⟨?_, weatherToJson (weatherOutcome wenv inc.Latitude inc.Longitude), ?_, ?_⟩
  · simp [normalizeRow_details, jlookup, List.lookup]
  · simp [normalizeRow_details, jlookup, List.lookup, hne]
  · intro msg hmsg
    rw [weatherOutcome_error wenv inc.Latitude inc.Longitude msg hmsg]
    rfl

/-- Witness for C9: incident 1 saved with the weather service down; the
blob holds the raw incident and a null `weather` entry. -/
theorem details_blob_contains_raw_incident_and_weather_key_witness :
    incidentToJson inc1 = .ok (mkIncidentRaw 1 "Vehicle Crash" "2024-05-01T10:00:00Z") ∧
    (0 : Nat) < (saveToUnifiedDB envFail storeOK 0 [] inc1).storeCalls.length ∧
    (jlookup (((saveToUnifiedDB envFail storeOK 0 [] inc1).storeCalls.getD 0 oldRow).details)
      "raw_incident" = some (mkIncidentRaw 1 "Vehicle Crash" "2024-05-01T10:00:00Z") ∧
    ∃ wv,
      jlookup (((saveToUnifiedDB envFail storeOK 0 [] inc1).storeCalls.getD 0 oldRow).details)
        "weather" = some wv ∧
      (∀ msg, (getWeatherForIncident envFail inc1.Latitude inc1.Longitude).1 = .error msg →
        wv = JValue.null)) :=
  ⟨rfl, by decide,
    details_blob_contains_raw_incident_and_weather_key envFail storeOK 0 [] inc1
      (mkIncidentRaw 1 "Vehicle Crash" "2024-05-01T10:00:00Z") rfl 0 (by decide)⟩

end NCDOT
